import Mathlib

/-!
Verification development for the spatial reasoning system (SRS).

The repository ships only the interface header `src/Sorts/src/include/SRS.h`
(the enum `twoObjectQueryType`, the class `SpatialReasoningSystem` with
`insertCircle`, `insertPolygon`, `removeShape`, `twoObjectQuery`, and the
private shape store `map<int, SRSShape*> shapes`).  The bodies of the
relation-computation engines and of the dispatcher are not part of the
sources, so every behavioural definition below is modelled from the
specification document, faithful to its words; the header fixes the names,
the query kinds and the shape of the interface.

Real-valued (`double`) coordinates are embedded as exact rationals `ℚ`.
All geometric predicates are written division-free so that they are
executable and their algebraic properties (symmetry, reflexivity,
translation invariance) can be proved by `ring`/`linarith` level reasoning.
-/

namespace SRS

/-- Modelled from the spec: the single shared epsilon tolerance used by both
engines ("All geometric predicates use a fixed epsilon tolerance ...; the
epsilon must be a single shared constant reused by both engines"). -/
def eps : ℚ := 1 / 1000000

/-- A 2D point / vector with rational coordinates. -/
abbrev Pt : Type := ℚ × ℚ

/-- Squared Euclidean distance between two points. -/
def sqDist (p q : Pt) : ℚ := (p.1 - q.1) ^ 2 + (p.2 - q.2) ^ 2

/-- Modelled from the spec: the tagged shape variant ("variants Circle,
Polygon"; circle has `center` and `radius`, polygon an ordered vertex
list). -/
inductive ShapeGeom : Type where
  | circle (center : Pt) (radius : ℚ)
  | polygon (vertices : List Pt)
deriving DecidableEq

/-- An axis-aligned bounding extent. -/
structure Box : Type where
  minx : ℚ
  maxx : ℚ
  miny : ℚ
  maxy : ℚ
deriving DecidableEq

/-- Minimum of a list of rationals (0 for the empty list). -/
def minList : List ℚ → ℚ
  | [] => 0
  | x :: xs => xs.foldl min x

/-- Maximum of a list of rationals (0 for the empty list). -/
def maxList : List ℚ → ℚ
  | [] => 0
  | x :: xs => xs.foldl max x

/-- Modelled from the spec: bounding-extent computation, one of the uniform
capabilities of the shape model ("bounding-box computation"). -/
def bbox : ShapeGeom → Box
  | .circle c r => ⟨c.1 - r, c.1 + r, c.2 - r, c.2 + r⟩
  | .polygon vs => ⟨minList (vs.map Prod.fst), maxList (vs.map Prod.fst),
                    minList (vs.map Prod.snd), maxList (vs.map Prod.snd)⟩

/-- Modelled from the spec: the fast-rejection test of the topological
engine ("Compute bounding-extent overlap as a fast rejection: if extents do
not intersect (with epsilon margin), result is DR"). -/
def extentsOverlap (a b : ShapeGeom) : Bool :=
  decide ((bbox a).minx ≤ (bbox b).maxx + eps ∧ (bbox b).minx ≤ (bbox a).maxx + eps ∧
          (bbox a).miny ≤ (bbox b).maxy + eps ∧ (bbox b).miny ≤ (bbox a).maxy + eps)

/-- The boundary edges of a polygon: consecutive vertex pairs, wrapping
around ("vertex order ... determines the boundary traversal direction"). -/
def edges (vs : List Pt) : List (Pt × Pt) := vs.zip (vs.rotate 1)

/-- Twice the signed area of the triangle `p q r`; the standard orientation
primitive used by the segment-intersection test. -/
def orient3 (p q r : Pt) : ℚ := (q.1 - p.1) * (r.2 - p.2) - (q.2 - p.2) * (r.1 - p.1)

/-- Two rationals have strictly opposite signs. -/
def oppSign (u v : ℚ) : Bool := decide ((u < 0 ∧ 0 < v) ∨ (0 < u ∧ v < 0))

/-- Modelled from the spec: segment-pair proper crossing test ("any edge
pair crosses"), via the orientation primitive. -/
def segsCross (e f : Pt × Pt) : Bool :=
  oppSign (orient3 e.1 e.2 f.1) (orient3 e.1 e.2 f.2) &&
  oppSign (orient3 f.1 f.2 e.1) (orient3 f.1 f.2 e.2)

/-- Some edge of the first polygon properly crosses some edge of the
second ("boundary-segment intersection test"). -/
def edgesCross (v1 v2 : List Pt) : Bool :=
  (edges v1).any fun e => (edges v2).any fun f => segsCross e f

/-- One step of the even-odd ray-casting point-in-polygon test: does the
horizontal ray from `q` to the right cross edge `e`?  Written
division-free: the crossing abscissa comparison is cross-multiplied by the
(sign-known) edge height. -/
def crossesRay (q : Pt) (e : Pt × Pt) : Bool :=
  let d : ℚ := ((e.1).1 - q.1) * ((e.2).2 - (e.1).2) + (q.2 - (e.1).2) * ((e.2).1 - (e.1).1)
  decide (((e.1).2 ≤ q.2 ∧ q.2 < (e.2).2 ∧ 0 < d) ∨ ((e.2).2 ≤ q.2 ∧ q.2 < (e.1).2 ∧ d < 0))

/-- Modelled from the spec: the point-in-polygon test of the shape model
("point-containment test"), by even-odd ray crossing counting. -/
def pointInPoly (q : Pt) (vs : List Pt) : Bool :=
  ((edges vs).countP (fun e => crossesRay q e)) % 2 == 1

/-- The squared distance from point `p` to segment `e` is at least `r2`.
Division-free form of the "minimum distance from circle center to polygon
boundary vs. radius" comparison: the interior-projection case is
cross-multiplied by the squared segment length. -/
def segFar (p : Pt) (e : Pt × Pt) (r2 : ℚ) : Bool :=
  let vx : ℚ := (e.2).1 - (e.1).1
  let vy : ℚ := (e.2).2 - (e.1).2
  let dot : ℚ := (p.1 - (e.1).1) * vx + (p.2 - (e.1).2) * vy
  let len2 : ℚ := vx ^ 2 + vy ^ 2
  decide ((dot ≤ 0 ∧ r2 ≤ sqDist p e.1) ∨
          (len2 ≤ dot ∧ r2 ≤ sqDist p e.2) ∨
          (0 < dot ∧ dot < len2 ∧ r2 * len2 ≤ sqDist p e.1 * len2 - dot ^ 2))

/-- The squared distance from point `p` to segment `e` is at most `r2`
(division-free, see `segFar`). -/
def segNear (p : Pt) (e : Pt × Pt) (r2 : ℚ) : Bool :=
  let vx : ℚ := (e.2).1 - (e.1).1
  let vy : ℚ := (e.2).2 - (e.1).2
  let dot : ℚ := (p.1 - (e.1).1) * vx + (p.2 - (e.1).2) * vy
  let len2 : ℚ := vx ^ 2 + vy ^ 2
  decide ((dot ≤ 0 ∧ sqDist p e.1 ≤ r2) ∨
          (len2 ≤ dot ∧ sqDist p e.2 ≤ r2) ∨
          (0 < dot ∧ dot < len2 ∧ sqDist p e.1 * len2 - dot ^ 2 ≤ r2 * len2))

/-- Twice the signed shoelace area of a polygon ("signed shoelace area,
absolute value used for magnitude, sign used to detect vertex winding"). -/
def area2 (vs : List Pt) : ℚ :=
  (edges vs).foldl (fun s e => s + ((e.1).1 * (e.2).2 - (e.2).1 * (e.1).2)) 0

/-- Modelled from the spec: the shape invariants ("radius > 0 for every
circle; a polygon has ≥ 3 vertices"; "Degenerate inputs (zero-area polygon
after collinearity) are rejected"). -/
def validGeom : ShapeGeom → Prop
  | .circle _ r => 0 < r
  | .polygon vs => 3 ≤ vs.length ∧ area2 vs ≠ 0

instance decValidGeom : DecidablePred validGeom := fun g =>
  match g with
  | .circle _ r => inferInstanceAs (Decidable (0 < r))
  | .polygon vs => inferInstanceAs (Decidable (3 ≤ vs.length ∧ area2 vs ≠ 0))

/-- Modelled from the spec: the equality test of the topological engine
("Shapes coincide within epsilon (same boundary, same area within
tolerance) → EQ").  A circle and a polygon never coincide. -/
def shEq (a b : ShapeGeom) : Bool :=
  match a, b with
  | .circle c1 r1, .circle c2 r2 => decide (sqDist c1 c2 ≤ eps ^ 2 ∧ |r1 - r2| ≤ eps)
  | .polygon v1, .polygon v2 =>
      decide ((∀ v ∈ v1, ∃ w ∈ v2, sqDist v w ≤ eps ^ 2) ∧
              (∀ w ∈ v2, ∃ v ∈ v1, sqDist w v ≤ eps ^ 2) ∧
              |area2 v1 - area2 v2| ≤ 2 * eps)
  | _, _ => false

/-- Modelled from the spec: the containment test of the topological engine
("Every point of A inside B"), by the variant-appropriate exact tests:
center distance against difference of radii for circle in circle; center
in polygon plus boundary clearance at least the radius for circle in
polygon; all vertices inside the circle for polygon in circle (exact since
a disc is convex); all vertices inside plus no boundary crossing for
polygon in polygon. -/
def partOf (a b : ShapeGeom) : Bool :=
  match a, b with
  | .circle c1 r1, .circle c2 r2 => decide (r1 ≤ r2 ∧ sqDist c1 c2 ≤ (r2 - r1) ^ 2)
  | .circle c r, .polygon vs =>
      pointInPoly c vs && decide (∀ e ∈ edges vs, segFar c e (r ^ 2) = true)
  | .polygon vs, .circle c r => decide (∀ v ∈ vs, sqDist v c ≤ r ^ 2)
  | .polygon v1, .polygon v2 =>
      decide (∀ v ∈ v1, pointInPoly v v2 = true) && !(edgesCross v1 v2)

/-- A circle and a polygon share a point: the center lies inside, or the
boundary comes within the radius of the center. -/
def circlePolyMeet (c : Pt) (r : ℚ) (vs : List Pt) : Bool :=
  pointInPoly c vs || (edges vs).any (fun e => segNear c e (r ^ 2))

/-- Modelled from the spec: existence of an intersection region, by the
variant-appropriate exact tests ("circle–circle: compare center distance
against sum/difference of radii", "circle–polygon: minimum distance from
circle center to polygon boundary vs. radius, plus point-in-polygon test",
"polygon–polygon: boundary-segment intersection test ... plus containment
test using a representative vertex"). -/
def intersects (a b : ShapeGeom) : Bool :=
  match a, b with
  | .circle c1 r1, .circle c2 r2 => decide (sqDist c1 c2 ≤ (r1 + r2) ^ 2)
  | .circle c r, .polygon vs => circlePolyMeet c r vs
  | .polygon vs, .circle c r => circlePolyMeet c r vs
  | .polygon v1, .polygon v2 =>
      edgesCross v1 v2 || v1.any (fun v => pointInPoly v v2) || v2.any (fun w => pointInPoly w v1)

/-- The five RCC8-subset relations computed by the topological engine. -/
inductive RCC : Type where
  | DR | PO | EQ | PP | PPI
deriving DecidableEq

/-- Modelled from the spec: step 2 and step 3 of the topological engine,
with the documented tie-break ("equality is evaluated before containment",
"containment is evaluated before overlap", the PPI case being symmetric to
the PP case, and "No boundary crossing and no point of either shape inside
the other ... → DR"). -/
def classifyExact (a b : ShapeGeom) : RCC :=
  if shEq a b then .EQ
  else if partOf a b && !(partOf b a) then .PP
  else if partOf b a && !(partOf a b) then .PPI
  else if intersects a b then .PO
  else .DR

/-- The fast-rejection stage of the topological engine, abstracted over the
exact stage `g` that it short-circuits past when the extents are
disjoint. -/
def classifyWith (g : ShapeGeom → ShapeGeom → RCC) (a b : ShapeGeom) : RCC :=
  if extentsOverlap a b then g a b else .DR

/-- Modelled from the spec: the full topological classification
`classify(shapeA, shapeB) → one of {DR, PO, EQ, PP, PPI}`. -/
def classify (a b : ShapeGeom) : RCC := classifyWith classifyExact a b

/-- The eight compass-style sectors of the directional engine. -/
inductive CompassSector : Type where
  | N | NE | E | SE | S | SW | W | NW
deriving DecidableEq

/-- Is the vector `(x, y)` at least 22.5 degrees away from the horizontal
axis, i.e. `|y| ≥ |x| * tan 22.5°`?  Since `tan² 22.5° = 3 - 2√2`, the
comparison `y² ≥ x² (3 - 2√2)` is decided exactly over ℚ by moving the
irrational part across and squaring once more (the inner comparison has a
sign-known left side `2√2 x² ≥ 0`). -/
def steep (x y : ℚ) : Bool :=
  decide (3 * x ^ 2 - y ^ 2 ≤ 0 ∨ (3 * x ^ 2 - y ^ 2) ^ 2 ≤ 8 * x ^ 4)

/-- Modelled from the spec: the eight-sector classification of a nonzero
direction vector ("map to one of eight compass-style sectors (N, NE, E,
SE, S, SW, W, NW) using 45°-wide sectors centered on each
cardinal/diagonal direction", with the positive x-axis as the fixed
reference axis and the y-axis as north).  A vector within 22.5° of an axis
gets the cardinal sector of that axis; otherwise a diagonal sector found
from the two coordinate signs. -/
def sector (x y : ℚ) : CompassSector :=
  if steep x y then
    if steep y x then
      if 0 < x then (if 0 < y then .NE else .SE)
      else (if 0 < y then .NW else .SW)
    else (if 0 < y then .N else .S)
  else (if 0 < x then .E else .W)

/-- Modelled from the spec data model: a stored shape, with its geometry,
its facing direction vector `(i, j)` and its display name ("`name`:
display label, non-semantic to the algorithms"). -/
structure Shape : Type where
  geom : ShapeGeom
  facing : Pt
  name : String
deriving DecidableEq

/-- Modelled from the spec: the shape's anchor for directional reasoning
("`referencePoint`: a 2D coordinate used as the shape's anchor for
directional reasoning"): the center for a circle, the first inserted
vertex for a polygon. -/
def refPoint (s : Shape) : Pt :=
  match s.geom with
  | .circle c _ => c
  | .polygon vs => vs.headD (0, 0)

/-- Modelled from the spec: the four error kinds of the error-handling
design ("UnknownShape ..., InvalidGeometry ..., UndefinedOrientation ...,
UnsupportedQueryCombination ..."). -/
inductive SRSError : Type where
  | UnknownShape
  | InvalidGeometry
  | UndefinedOrientation
  | UnsupportedQueryCombination
deriving DecidableEq

/-- Modelled from the spec: egocentric orientation ("given a shape's
facing vector, compute its angle from a fixed reference axis ... then map
to one of eight compass-style sectors; a zero-length facing vector is a
precondition failure (undefined orientation)"). -/
def egoOrientation (s : Shape) : Except SRSError CompassSector :=
  if s.facing = ((0 : ℚ), (0 : ℚ)) then .error .UndefinedOrientation
  else .ok (sector s.facing.1 s.facing.2)

/-- Modelled from the spec: allocentric orientation ("compute the vector
from A's referencePoint to B's referencePoint, then express this vector's
angle relative to A's own facing direction (subtract A's facing angle from
the absolute bearing ...) and map to the same eight-sector scheme.  If A
and B share the same reference point ..., this is a precondition
failure").  Subtracting the facing angle is realised exactly by rotating
the relative vector by the conjugate of the facing vector, which scales
its length by `|facing|` and leaves its angle equal to the difference of
the two bearings. -/
def allocentricOrientation (observer target : Shape) : Except SRSError CompassSector :=
  if refPoint observer = refPoint target then .error .UndefinedOrientation
  else if observer.facing = ((0 : ℚ), (0 : ℚ)) then .error .UndefinedOrientation
  else
    let dx : ℚ := (refPoint target).1 - (refPoint observer).1
    let dy : ℚ := (refPoint target).2 - (refPoint observer).2
    let fx : ℚ := observer.facing.1
    let fy : ℚ := observer.facing.2
    .ok (sector (dx * fx + dy * fy) (dy * fx - dx * fy))

/-- The seven query kinds of `twoObjectQueryType` in `SRS.h`. -/
inductive twoObjectQueryType : Type where
  | RCC_DR | RCC_PO | RCC_EQ | RCC_PP | RCC_PPI
  | ORIENTATION
  | ALLOCENTRIC_ORIENTATION
deriving DecidableEq

/-- The result of a successful query: either whether the asked RCC
relation holds, or a compass sector. -/
inductive QueryResult : Type where
  | rel (holds : Bool)
  | orientResult (o : CompassSector)
deriving DecidableEq

/-- The shape store of `SpatialReasoningSystem` (`map<int, SRSShape*>
shapes` in `SRS.h`): a keyed container with unique-id lookup, embedded as
a partial map from identifiers to shapes. -/
structure SpatialReasoningSystem : Type where
  shapes : Int → Option Shape

/-- Modelled from the spec: `insertCircle(x, y, radius, i, j, id, name)`
stores a circle shape with facing `(i, j)` under `id`. -/
def insertCircle (srs : SpatialReasoningSystem) (x y radius i j : ℚ) (id : Int)
    (name : String) : SpatialReasoningSystem :=
  ⟨fun k => if k = id then some ⟨.circle (x, y) radius, (i, j), name⟩ else srs.shapes k⟩

/-- Modelled from the spec: `insertPolygon(points, i, j, id, name)` stores
a polygon shape with facing `(i, j)` under `id`. -/
def insertPolygon (srs : SpatialReasoningSystem) (points : List Pt) (i j : ℚ) (id : Int)
    (name : String) : SpatialReasoningSystem :=
  ⟨fun k => if k = id then some ⟨.polygon points, (i, j), name⟩ else srs.shapes k⟩

/-- Modelled from the spec: `removeShape(id)` destroys the shape held
under `id` ("it is destroyed (and its id freed for reuse) on explicit
removal"). -/
def removeShape (srs : SpatialReasoningSystem) (id : Int) : SpatialReasoningSystem :=
  ⟨fun k => if k = id then none else srs.shapes k⟩

/-- Modelled from the spec: the query dispatcher
(`SpatialReasoningSystem::twoObjectQuery` in `SRS.h`; "Resolves both
identifiers against the external shape store; fails with UnknownShape if
either id is absent.  Fails with InvalidGeometry if a shape fails its
variant invariants ...  Routes RCC_* kinds to the Topological engine,
ORIENTATION to egocentric orientation (using only the primary shape), and
ALLOCENTRIC_ORIENTATION to the Directional engine using reference as
observer and primary as target"). -/
def twoObjectQuery (srs : SpatialReasoningSystem) (t : twoObjectQueryType)
    (referenceId primaryId : Int) : Except SRSError QueryResult :=
  match srs.shapes referenceId, srs.shapes primaryId with
  | some A, some B =>
    if validGeom A.geom ∧ validGeom B.geom then
      match t with
      | .RCC_DR => .ok (.rel (classify A.geom B.geom == RCC.DR))
      | .RCC_PO => .ok (.rel (classify A.geom B.geom == RCC.PO))
      | .RCC_EQ => .ok (.rel (classify A.geom B.geom == RCC.EQ))
      | .RCC_PP => .ok (.rel (classify A.geom B.geom == RCC.PP))
      | .RCC_PPI => .ok (.rel (classify A.geom B.geom == RCC.PPI))
      | .ORIENTATION => (egoOrientation B).map QueryResult.orientResult
      | .ALLOCENTRIC_ORIENTATION => (allocentricOrientation A B).map QueryResult.orientResult
    else .error .InvalidGeometry
  | _, _ => .error .UnknownShape

/-- Is a query outcome an error? -/
def isErr : Except SRSError QueryResult → Bool
  | .error _ => true
  | .ok _ => false

/-- The five RCC query kinds. -/
def rccKinds : List twoObjectQueryType :=
  [.RCC_DR, .RCC_PO, .RCC_EQ, .RCC_PP, .RCC_PPI]

/-- A given RCC relation query succeeded and reported that its relation
holds. -/
def rccQueryHolds (srs : SpatialReasoningSystem) (t : twoObjectQueryType)
    (referenceId primaryId : Int) : Bool :=
  match twoObjectQuery srs t referenceId primaryId with
  | .ok (.rel h) => h
  | _ => false

/-- Modelled from the spec: a query as a state transition on the system
("No side effects beyond the read of shape state"): it returns its result
together with the store it leaves behind, which is the store it read. -/
def twoObjectQueryRun (srs : SpatialReasoningSystem) (t : twoObjectQueryType)
    (referenceId primaryId : Int) :
    Except SRSError QueryResult × SpatialReasoningSystem :=
  (twoObjectQuery srs t referenceId primaryId, srs)

/-- Translation of a shape geometry by a vector. -/
def translateGeom (t : Pt) : ShapeGeom → ShapeGeom
  | .circle c r => .circle (c.1 + t.1, c.2 + t.2) r
  | .polygon vs => .polygon (vs.map (fun p => (p.1 + t.1, p.2 + t.2)))

/-- Translation of a whole shape: the geometry moves, the facing direction
and the name stay. -/
def translateShape (t : Pt) (s : Shape) : Shape :=
  ⟨translateGeom t s.geom, s.facing, s.name⟩

/-- The error conditions of the dispatcher, as a predicate on the query
input: an absent identifier, an invalid stored geometry, a zero facing
vector for the egocentric query, or coinciding reference points or a zero
observer facing for the allocentric query. -/
def errorCond (srs : SpatialReasoningSystem) (t : twoObjectQueryType)
    (referenceId primaryId : Int) : Prop :=
  match srs.shapes referenceId, srs.shapes primaryId with
  | some A, some B =>
      ¬(validGeom A.geom ∧ validGeom B.geom) ∨
      (t = .ORIENTATION ∧ B.facing = ((0 : ℚ), (0 : ℚ))) ∨
      (t = .ALLOCENTRIC_ORIENTATION ∧
        (refPoint A = refPoint B ∨ A.facing = ((0 : ℚ), (0 : ℚ))))
  | _, _ => True

/-! ## Helper lemmas -/

theorem boolEqOfIff {a b : Bool} (h : a = true ↔ b = true) : a = b := by
  cases a <;> cases b <;> simp_all

theorem eps_pos : 0 < eps := by norm_num [eps]

theorem sqDist_comm (p q : Pt) : sqDist p q = sqDist q p := by
  unfold sqDist; ring

theorem sqDist_self (p : Pt) : sqDist p p = 0 := by
  simp [sqDist]

theorem extentsOverlap_symm (a b : ShapeGeom) : extentsOverlap b a = extentsOverlap a b := by
  unfold extentsOverlap
  rw [decide_eq_decide]
  tauto

theorem shEq_symm (a b : ShapeGeom) : shEq b a = shEq a b := by
  cases a with
  | circle c1 r1 =>
    cases b with
    | circle c2 r2 =>
      simp only [shEq]
      rw [decide_eq_decide]
      constructor
      · rintro ⟨h1, h2⟩
        exact ⟨by rwa [sqDist_comm], by rwa [abs_sub_comm]⟩
      · rintro ⟨h1, h2⟩
        exact ⟨by rwa [sqDist_comm], by rwa [abs_sub_comm]⟩
    | polygon v2 => rfl
  | polygon v1 =>
    cases b with
    | circle c2 r2 => rfl
    | polygon v2 =>
      simp only [shEq]
      rw [decide_eq_decide]
      constructor
      · rintro ⟨h1, h2, h3⟩
        exact ⟨h2, h1, by rwa [abs_sub_comm]⟩
      · rintro ⟨h1, h2, h3⟩
        exact ⟨h2, h1, by rwa [abs_sub_comm]⟩

theorem segsCross_symm (e f : Pt × Pt) : segsCross f e = segsCross e f := by
  unfold segsCross
  exact Bool.and_comm _ _

theorem edgesCross_symm (v1 v2 : List Pt) : edgesCross v2 v1 = edgesCross v1 v2 := by
  apply boolEqOfIff
  simp only [edgesCross, List.any_eq_true]
  constructor
  · rintro ⟨e, he, f, hf, h⟩
    exact ⟨f, hf, e, he, by rw [segsCross_symm]; exact h⟩
  · rintro ⟨e, he, f, hf, h⟩
    exact ⟨f, hf, e, he, by rw [segsCross_symm]; exact h⟩

theorem intersects_symm (a b : ShapeGeom) : intersects b a = intersects a b := by
  cases a with
  | circle c1 r1 =>
    cases b with
    | circle c2 r2 =>
      simp only [intersects]
      rw [sqDist_comm c2 c1, add_comm r2 r1]
    | polygon v2 => rfl
  | polygon v1 =>
    cases b with
    | circle c2 r2 => rfl
    | polygon v2 =>
      simp only [intersects]
      rw [edgesCross_symm v2 v1, Bool.or_assoc, Bool.or_assoc,
        Bool.or_comm (v2.any fun w => pointInPoly w v1) (v1.any fun v => pointInPoly v v2)]

theorem foldl_min_le (l : List ℚ) (x : ℚ) : l.foldl min x ≤ x := by
  induction l generalizing x with
  | nil => exact le_refl x
  | cons h t ih => exact le_trans (ih (min x h)) (min_le_left x h)

theorem le_foldl_max (l : List ℚ) (x : ℚ) : x ≤ l.foldl max x := by
  induction l generalizing x with
  | nil => exact le_refl x
  | cons h t ih => exact le_trans (le_max_left x h) (ih (max x h))

theorem minList_le_maxList (l : List ℚ) : minList l ≤ maxList l := by
  cases l with
  | nil => exact le_refl 0
  | cons x xs => exact le_trans (foldl_min_le xs x) (le_foldl_max xs x)

theorem bbox_wf (g : ShapeGeom) (h : validGeom g) :
    (bbox g).minx ≤ (bbox g).maxx ∧ (bbox g).miny ≤ (bbox g).maxy := by
  cases g with
  | circle c r =>
    have hr : 0 < r := h
    constructor <;> (simp only [bbox]; linarith)
  | polygon vs => exact ⟨minList_le_maxList _, minList_le_maxList _⟩

theorem extentsOverlap_self (g : ShapeGeom) (h : validGeom g) : extentsOverlap g g = true := by
  obtain ⟨h1, h2⟩ := bbox_wf g h
  have he : 0 < eps := eps_pos
  unfold extentsOverlap
  exact decide_eq_true ⟨by linarith, by linarith, by linarith, by linarith⟩

theorem shEq_self (g : ShapeGeom) : shEq g g = true := by
  cases g with
  | circle c r =>
    simp only [shEq]
    apply decide_eq_true
    refine ⟨?_, ?_⟩
    · rw [sqDist_self]; positivity
    · simp only [sub_self, abs_zero]; exact le_of_lt eps_pos
  | polygon vs =>
    simp only [shEq]
    apply decide_eq_true
    refine ⟨fun v hv => ⟨v, hv, ?_⟩, fun w hw => ⟨w, hw, ?_⟩, ?_⟩
    · rw [sqDist_self]; positivity
    · rw [sqDist_self]; positivity
    · simp only [sub_self, abs_zero]
      linarith [eps_pos]

/-! ## Claims -/

/-- Claim C1: for every pair of valid shapes A and B, the topological
classification is symmetric in the RCC8-subset sense: `classify(A,B) = DR`
iff `classify(B,A) = DR`, likewise for PO and EQ, and `classify(A,B) = PP`
iff `classify(B,A) = PPI`. -/
theorem classify_symm (a b : ShapeGeom) (ha : validGeom a) (hb : validGeom b) :
    (classify a b = .DR ↔ classify b a = .DR) ∧
    (classify a b = .PO ↔ classify b a = .PO) ∧
    (classify a b = .EQ ↔ classify b a = .EQ) ∧
    (classify a b = .PP ↔ classify b a = .PPI) := by
  cases h1 : extentsOverlap a b <;> cases h2 : shEq a b <;>
    cases h3 : partOf a b <;> cases h4 : partOf b a <;> cases h5 : intersects a b <;>
      simp [classify, classifyWith, classifyExact, extentsOverlap_symm a b, shEq_symm a b,
        intersects_symm a b, h1, h2, h3, h4, h5]

theorem classify_symm_witness :
    validGeom (ShapeGeom.circle (0, 0) 1) ∧ validGeom (ShapeGeom.circle (0, 0) 5) ∧
    ((classify (ShapeGeom.circle (0, 0) 1) (ShapeGeom.circle (0, 0) 5) = .DR ↔
        classify (ShapeGeom.circle (0, 0) 5) (ShapeGeom.circle (0, 0) 1) = .DR) ∧
     (classify (ShapeGeom.circle (0, 0) 1) (ShapeGeom.circle (0, 0) 5) = .PO ↔
        classify (ShapeGeom.circle (0, 0) 5) (ShapeGeom.circle (0, 0) 1) = .PO) ∧
     (classify (ShapeGeom.circle (0, 0) 1) (ShapeGeom.circle (0, 0) 5) = .EQ ↔
        classify (ShapeGeom.circle (0, 0) 5) (ShapeGeom.circle (0, 0) 1) = .EQ) ∧
     (classify (ShapeGeom.circle (0, 0) 1) (ShapeGeom.circle (0, 0) 5) = .PP ↔
        classify (ShapeGeom.circle (0, 0) 5) (ShapeGeom.circle (0, 0) 1) = .PPI)) :=
  ⟨by norm_num [validGeom], by norm_num [validGeom],
    classify_symm _ _ (by norm_num [validGeom]) (by norm_num [validGeom])⟩

/-- Claim C2: for every valid shape A, classifying A against itself yields
EQ: `classify(A,A) = EQ`. -/
theorem classify_self (a : ShapeGeom) (ha : validGeom a) : classify a a = .EQ := by
  simp [classify, classifyWith, classifyExact, extentsOverlap_self a ha, shEq_self a]

theorem classify_self_witness :
    validGeom (ShapeGeom.circle (1, 1) 5) ∧
    classify (ShapeGeom.circle (1, 1) 5) (ShapeGeom.circle (1, 1) 5) = .EQ :=
  ⟨by norm_num [validGeom], classify_self _ (by norm_num [validGeom])⟩

/-- Claim C6: for every pair of valid shapes whose bounding extents do not
intersect (beyond the shared epsilon margin), the topological
classification returns DR, and the result is produced by the
fast-rejection stage alone: it does not depend on the exact stage, so the
variant-specific intersection tests are short-circuited (any exact stage
`g` yields the same DR answer). -/
theorem classify_fast_reject (a b : ShapeGeom) (ha : validGeom a) (hb : validGeom b)
    (h : extentsOverlap a b = false) :
    classify a b = .DR ∧ ∀ g : ShapeGeom → ShapeGeom → RCC, classifyWith g a b = .DR := by
  refine ⟨?_, fun g => ?_⟩
  · simp [classify, classifyWith, h]
  · simp [classifyWith, h]

theorem classify_fast_reject_witness :
    validGeom (ShapeGeom.circle (0, 0) 2) ∧ validGeom (ShapeGeom.circle (10, 0) 2) ∧
    extentsOverlap (ShapeGeom.circle (0, 0) 2) (ShapeGeom.circle (10, 0) 2) = false ∧
    (classify (ShapeGeom.circle (0, 0) 2) (ShapeGeom.circle (10, 0) 2) = .DR ∧
     ∀ g : ShapeGeom → ShapeGeom → RCC,
       classifyWith g (ShapeGeom.circle (0, 0) 2) (ShapeGeom.circle (10, 0) 2) = .DR) :=
  ⟨by norm_num [validGeom], by norm_num [validGeom],
   by norm_num [extentsOverlap, bbox, eps],
   classify_fast_reject _ _ (by norm_num [validGeom]) (by norm_num [validGeom])
     (by norm_num [extentsOverlap, bbox, eps])⟩

/-- Claim C3: for every query kind and every pair of identifiers, if
either identifier is not present in the shape store, the query fails with
the UnknownShape error; in particular, after `removeShape` on an
identifier, any query naming that identifier (in either position) fails
with UnknownShape and never returns a stale result. -/
theorem query_unknown_shape (srs : SpatialReasoningSystem) (t : twoObjectQueryType)
    (a b : Int) :
    (srs.shapes a = none ∨ srs.shapes b = none →
      twoObjectQuery srs t a b = .error .UnknownShape) ∧
    (∀ i c : Int,
      twoObjectQuery (removeShape srs i) t i c = .error .UnknownShape ∧
      twoObjectQuery (removeShape srs i) t c i = .error .UnknownShape) := by
  constructor
  · rintro (h | h)
    · simp [twoObjectQuery, h]
    · cases hc : srs.shapes a <;> simp [twoObjectQuery, hc, h]
  · intro i c
    have hi : (removeShape srs i).shapes i = none := by simp [removeShape]
    constructor
    · simp [twoObjectQuery, hi]
    · cases hc : (removeShape srs i).shapes c <;> simp [twoObjectQuery, hc, hi]

theorem query_unknown_shape_witness :
    ((⟨fun _ => none⟩ : SpatialReasoningSystem).shapes 1 = none ∨
      (⟨fun _ => none⟩ : SpatialReasoningSystem).shapes 2 = none) ∧
    twoObjectQuery ⟨fun _ => none⟩ .RCC_DR 1 2 = .error .UnknownShape :=
  ⟨Or.inl rfl, (query_unknown_shape ⟨fun _ => none⟩ .RCC_DR 1 2).1 (Or.inl rfl)⟩

/-- Claim C4: for every stored valid shape whose facing vector is the zero
vector, the egocentric orientation query fails with the
UndefinedOrientation error (a precondition failure, not a division by zero
and not an arbitrary sector); likewise, for every pair of stored valid
shapes whose reference points coincide, the allocentric orientation query
fails with UndefinedOrientation. -/
theorem query_undefined_orientation (srs : SpatialReasoningSystem) (a b : Int)
    (A B : Shape) (ha : srs.shapes a = some A) (hb : srs.shapes b = some B)
    (hva : validGeom A.geom) (hvb : validGeom B.geom) :
    (B.facing = ((0 : ℚ), (0 : ℚ)) →
      twoObjectQuery srs .ORIENTATION a b = .error .UndefinedOrientation) ∧
    (refPoint A = refPoint B →
      twoObjectQuery srs .ALLOCENTRIC_ORIENTATION a b = .error .UndefinedOrientation) := by
  constructor
  · intro h
    simp [twoObjectQuery, ha, hb, hva, hvb, egoOrientation, h, Except.map]
  · intro h
    simp [twoObjectQuery, ha, hb, hva, hvb, allocentricOrientation, h, Except.map]

theorem query_undefined_orientation_witness :
    twoObjectQuery (insertCircle ⟨fun _ => none⟩ 0 0 1 0 0 1 "a") .ORIENTATION 1 1 =
      .error .UndefinedOrientation ∧
    twoObjectQuery (insertCircle ⟨fun _ => none⟩ 0 0 1 0 0 1 "a") .ALLOCENTRIC_ORIENTATION 1 1 =
      .error .UndefinedOrientation :=
  ⟨(query_undefined_orientation _ 1 1 ⟨.circle (0, 0) 1, (0, 0), "a"⟩
      ⟨.circle (0, 0) 1, (0, 0), "a"⟩ rfl rfl (by norm_num [validGeom])
      (by norm_num [validGeom])).1 rfl,
   (query_undefined_orientation _ 1 1 ⟨.circle (0, 0) 1, (0, 0), "a"⟩
      ⟨.circle (0, 0) 1, (0, 0), "a"⟩ rfl rfl (by norm_num [validGeom])
      (by norm_num [validGeom])).2 rfl⟩

/-- Claim C9: every query leaves the shape collection unchanged: for every
store state and every pair of identifiers, every identifier maps to the
same shape (same geometry, facing and name) after the query as before it,
and running the same query again on the store the first run left behind
returns the same result. -/
theorem query_preserves_store (srs : SpatialReasoningSystem) (t : twoObjectQueryType)
    (a b : Int) :
    (∀ k : Int, ((twoObjectQueryRun srs t a b).2).shapes k = srs.shapes k) ∧
    (twoObjectQueryRun ((twoObjectQueryRun srs t a b).2) t a b).1 =
      (twoObjectQueryRun srs t a b).1 :=
  ⟨fun _ => rfl, rfl⟩

/-- Claim C8: for every query, the outcome is an error exactly when one of
the error conditions holds (absent identifier, invalid stored geometry,
zero facing for the egocentric query, coinciding reference points or zero
observer facing for the allocentric query).  Errors are surfaced as a
distinguishable error outcome (the `error` constructor), never coerced
into a relation value, and no non-error input produces an error. -/
theorem query_error_iff (srs : SpatialReasoningSystem) (t : twoObjectQueryType)
    (a b : Int) :
    isErr (twoObjectQuery srs t a b) = true ↔ errorCond srs t a b := by
  cases hA : srs.shapes a with
  | none => simp [twoObjectQuery, errorCond, hA, isErr]
  | some A =>
    cases hB : srs.shapes b with
    | none => simp [twoObjectQuery, errorCond, hA, hB, isErr]
    | some B =>
      by_cases hv : validGeom A.geom ∧ validGeom B.geom
      · cases t with
        | RCC_DR => simp [twoObjectQuery, errorCond, hA, hB, hv, isErr]
        | RCC_PO => simp [twoObjectQuery, errorCond, hA, hB, hv, isErr]
        | RCC_EQ => simp [twoObjectQuery, errorCond, hA, hB, hv, isErr]
        | RCC_PP => simp [twoObjectQuery, errorCond, hA, hB, hv, isErr]
        | RCC_PPI => simp [twoObjectQuery, errorCond, hA, hB, hv, isErr]
        | ORIENTATION =>
          by_cases hf : B.facing = (0 : Pt) <;>
            simp [twoObjectQuery, errorCond, hA, hB, hv, isErr, egoOrientation, hf,
              Except.map]
        | ALLOCENTRIC_ORIENTATION =>
          by_cases hr : refPoint A = refPoint B
          · simp [twoObjectQuery, errorCond, hA, hB, hv, isErr, allocentricOrientation,
              hr, Except.map]
          · by_cases hf : A.facing = (0 : Pt) <;>
              simp [twoObjectQuery, errorCond, hA, hB, hv, isErr, allocentricOrientation,
                hr, hf, Except.map]
      · simp [twoObjectQuery, errorCond, hA, hB, hv, isErr]

/-- Claim C10: for every pair of valid shapes present in the store,
exactly one of the five RCC relation queries reports that its relation
holds: the count of holding queries among RCC_DR, RCC_PO, RCC_EQ, RCC_PP,
RCC_PPI is exactly one (the five relations partition all valid shape
pairs). -/
theorem rcc_partition (srs : SpatialReasoningSystem) (a b : Int) (A B : Shape)
    (ha : srs.shapes a = some A) (hb : srs.shapes b = some B)
    (hva : validGeom A.geom) (hvb : validGeom B.geom) :
    rccKinds.countP (fun t => rccQueryHolds srs t a b) = 1 := by
  simp only [rccKinds, List.countP_cons, List.countP_nil, rccQueryHolds,
    twoObjectQuery, ha, hb, hva, hvb, and_self, if_true]
  cases hc : classify A.geom B.geom <;> simp [hc]

theorem rcc_partition_witness :
    (insertCircle (insertCircle ⟨fun _ => none⟩ 0 0 2 0 1 1 "a") 10 0 2 0 1 2 "b").shapes 1 =
      some ⟨.circle (0, 0) 2, (0, 1), "a"⟩ ∧
    rccKinds.countP (fun t =>
      rccQueryHolds (insertCircle (insertCircle ⟨fun _ => none⟩ 0 0 2 0 1 1 "a") 10 0 2 0 1 2 "b")
        t 1 2) = 1 :=
  ⟨by norm_num [insertCircle],
   rcc_partition _ 1 2 ⟨.circle (0, 0) 2, (0, 1), "a"⟩ ⟨.circle (10, 0) 2, (0, 1), "b"⟩
     (by norm_num [insertCircle]) (by norm_num [insertCircle])
     (by norm_num [validGeom]) (by norm_num [validGeom])⟩

theorem refPoint_translate (t : Pt) (s : Shape) (h : validGeom s.geom) :
    refPoint (translateShape t s) = ((refPoint s).1 + t.1, (refPoint s).2 + t.2) := by
  obtain ⟨g, f, n⟩ := s
  cases g with
  | circle c r => rfl
  | polygon vs =>
    cases vs with
    | nil =>
      exfalso
      have h3 : 3 ≤ ([] : List Pt).length := h.1
      simp at h3
    | cons v rest => rfl

/-- Claim C5: for every observer A and target B with distinct reference
points and A having a nonzero facing vector, and every translation vector
t, the allocentric orientation of B from A is unchanged when both shapes
are translated by t (relative bearing is translation-invariant). -/
theorem allocentric_translation_invariant (t : Pt) (A B : Shape)
    (hvA : validGeom A.geom) (hvB : validGeom B.geom)
    (h1 : refPoint A ≠ refPoint B) (h2 : A.facing ≠ ((0 : ℚ), (0 : ℚ))) :
    allocentricOrientation (translateShape t A) (translateShape t B) =
      allocentricOrientation A B := by
  have eA := refPoint_translate t A hvA
  have eB := refPoint_translate t B hvB
  have hne : ¬(((refPoint A).1 + t.1, (refPoint A).2 + t.2) =
      (((refPoint B).1 + t.1, (refPoint B).2 + t.2) : Pt)) := by
    intro hc
    rw [Prod.mk.injEq] at hc
    exact h1 (Prod.ext_iff.mpr ⟨by linarith [hc.1], by linarith [hc.2]⟩)
  have hfA : (translateShape t A).facing = A.facing := rfl
  simp only [allocentricOrientation, eA, eB, hfA]
  rw [if_neg hne, if_neg h1, if_neg h2, if_neg h2]
  congr 2 <;> ring

theorem allocentric_translation_invariant_witness :
    allocentricOrientation
        (translateShape (5, 7) ⟨.circle (0, 0) 1, (0, 1), "a"⟩)
        (translateShape (5, 7) ⟨.circle (3, 0) 1, (0, 1), "b"⟩) =
      allocentricOrientation ⟨.circle (0, 0) 1, (0, 1), "a"⟩ ⟨.circle (3, 0) 1, (0, 1), "b"⟩ :=
  allocentric_translation_invariant (5, 7) _ _
    (by norm_num [validGeom]) (by norm_num [validGeom])
    (by norm_num [refPoint, Prod.ext_iff]) (by norm_num [Prod.ext_iff])

theorem steep_scale (x y q : ℚ) (hq : 0 < q) : steep (q * x) (q * y) = steep x y := by
  have hq2 : (0 : ℚ) < q ^ 2 := by positivity
  have hq4 : (0 : ℚ) < q ^ 4 := by positivity
  unfold steep
  rw [decide_eq_decide]
  have e1 : 3 * (q * x) ^ 2 - (q * y) ^ 2 = q ^ 2 * (3 * x ^ 2 - y ^ 2) := by ring
  rw [e1]
  constructor
  · rintro (h | h)
    · left; nlinarith
    · right; nlinarith
  · rintro (h | h)
    · left; nlinarith
    · right; nlinarith [mul_le_mul_of_nonneg_left h hq4.le]

theorem sector_scale (x y q : ℚ) (hq : 0 < q) : sector (q * x) (q * y) = sector x y := by
  have hx : (0 < q * x) ↔ (0 < x) := ⟨fun h => by nlinarith, fun h => mul_pos hq h⟩
  have hy : (0 < q * y) ↔ (0 < y) := ⟨fun h => by nlinarith, fun h => mul_pos hq h⟩
  unfold sector
  rw [steep_scale x y q hq, steep_scale y x q hq]
  simp only [hx, hy]

/-- Claim C7: a shape whose facing vector is `(0,1)` has egocentric
orientation N; more generally the sector assignment depends only on the
direction (angle) of the vector, not its length (invariance under positive
scaling), and the eight cardinal and diagonal archetype directions each
map to their own sector, the sectors being 45°-wide and centered on those
directions. -/
theorem orientation_sector_spec :
    (∀ s : Shape, s.facing = ((0 : ℚ), (1 : ℚ)) → egoOrientation s = .ok .N) ∧
    (∀ x y q : ℚ, 0 < q → sector (q * x) (q * y) = sector x y) ∧
    (sector 1 0 = .E ∧ sector 1 1 = .NE ∧ sector 0 1 = .N ∧ sector (-1) 1 = .NW ∧
     sector (-1) 0 = .W ∧ sector (-1) (-1) = .SW ∧ sector 0 (-1) = .S ∧ sector 1 (-1) = .SE) := by
  refine ⟨?_, fun x y q hq => sector_scale x y q hq, ?_⟩
  · intro s h
    rw [egoOrientation, h]
    norm_num [sector, steep, Prod.mk.injEq]
  · norm_num [sector, steep]

theorem orientation_sector_spec_witness :
    egoOrientation ⟨.circle (0, 0) 1, (0, 1), "n"⟩ = .ok .N ∧
    sector (2 * 1) (2 * 0) = sector 1 0 :=
  ⟨orientation_sector_spec.1 ⟨.circle (0, 0) 1, (0, 1), "n"⟩ rfl,
   orientation_sector_spec.2.1 1 0 2 (by norm_num)⟩

end SRS
